import Mathlib

/-!
Shallow embedding of the adamant-tradebot order-lifecycle engine:
the order-book builder (`tradeParams_atomars.js`), the command
processor (`commandTxs`, two dialects), and the trading-API adapters
(`trader_dextrade`, `trader_bitqik`).  Pure decision logic is
translated to executable Lean functions; randomness is passed in as
explicit draws; asynchronous scheduling is modelled as a step relation
on explicit state.
-/

namespace Tradebot

/-- Order side, the `type` field of the JS code: `'buy'` or `'sell'`. -/
inductive Side where
  | buy
  | sell
deriving DecidableEq, Repr

/-- Embedding of `setType()` from the order-book builder
(`tradeParams_atomars.js`).  The JS reads
`Math.random() > tradeParams.mm_buyPercent ? 'buy' : 'sell'`;
the uniform draw `Math.random()` is passed in as `r ∈ [0,1)`.
When `mm_buyPercent` is unset (falsy, hence also when it is `0`)
the function logs a warning and returns `false`, modelled as `none`. -/
def setType (buyPercent : ℚ) (r : ℚ) : Option Side :=
  if buyPercent = 0 then none
  else some (if r > buyPercent then Side.buy else Side.sell)

/-- `MAX_ORDERS_PER_ITERATION = 5` in the order-book builder. -/
def MAX_ORDERS_PER_ITERATION : ℕ := 5

/-- Embedding of the placement `while` loop of `buildOrderBook()`:
`while (ordersToPlace > 0 && orderBookOrdersCount < tradeParams.mm_orderBookOrdersCount)`;
each pass decrements `ordersToPlace`, calls `placeOrderBookOrder` (whose
success/failure is the next element of `outcomes`), and on success
increments the count.  Returns the final `orderBookOrdersCount`. -/
def buildLoop (M : ℕ) (outcomes : ℕ → Bool) : ℕ → ℕ → ℕ → ℕ
  | 0, count, _ => count
  | n + 1, count, i =>
    if count < M then
      buildLoop M outcomes n (if outcomes i then count + 1 else count) (i + 1)
    else count

/-- Final `orderBookOrdersCount` of one `buildOrderBook()` tick:
`N` surviving ob-orders after `closeOrderBookOrders`, the draw
`ordersToPlace = utils.randomValue(1, MAX_ORDERS_PER_ITERATION, true)`,
and the per-attempt success of `placeOrderBookOrder` given by `outcomes`. -/
def buildOrderBookCount (M N ordersToPlace : ℕ) (outcomes : ℕ → Bool) : ℕ :=
  buildLoop M outcomes ordersToPlace N 0

/-- `timeToConfirm = 1000 * 60 * 10`: ten minutes, in milliseconds. -/
def timeToConfirm : ℤ := 1000 * 60 * 10

/-- The module-level `pendingConfirmation` object of the command
processor: the stored command text and the `Date.now()` stamp set by
`setPendingConfirmation`. -/
structure PendingConfirmation where
  command : String
  timestamp : ℤ
deriving DecidableEq, Repr

/-- Observable outcome of one `y` invocation: the confirmation command
was re-run (with the appended text), or the expiry refusal was sent, or
the no-pending-command reply was sent. -/
inductive YReply where
  | executed (cmd : String)
  | expired
  | noPending
deriving DecidableEq, Repr

/-- Embedding of `y()` from the newer command-processor dialect.
If a command is pending: when `Date.now() - pendingConfirmation.timestamp >
timeToConfirm` it replies that the command expired, otherwise it re-runs
`pendingConfirmation.command + ' -y'`; in both branches it then clears
`pendingConfirmation.command`.  With no pending command it replies
`There is no pending command to confirm.` -/
def yNew (s : PendingConfirmation) (now : ℤ) : PendingConfirmation × YReply :=
  if s.command ≠ "" then
    if now - s.timestamp > timeToConfirm then
      ({ s with command := "" }, YReply.expired)
    else
      ({ s with command := "" }, YReply.executed (s.command ++ " -y"))
  else
    (s, YReply.noPending)

/-- Embedding of `y()` from the older command-processor dialect.  The
branching is the same, but every branch `return`s from inside the
`try` block, so the trailing `pendingConfirmation.command = ''`
statement after the `try/catch` is unreachable on these paths: the
pending command is never cleared. -/
def yOld (s : PendingConfirmation) (now : ℤ) : PendingConfirmation × YReply :=
  if s.command ≠ "" then
    if now - s.timestamp > timeToConfirm then
      (s, YReply.expired)
    else
      (s, YReply.executed (s.command ++ " -y"))
  else
    (s, YReply.noPending)

/-- Re-entrancy state of one background component: the
`isPreviousIterationFinished` flag of the order-book builder together
with the number of `buildOrderBook()` runs currently in flight (a ghost
counter used to state the overlap property). -/
structure SchedState where
  isPreviousIterationFinished : Bool
  inFlight : ℕ
deriving DecidableEq, Repr

/-- Events of the builder loop: `arrive` is one firing of `iteration()`
with the activity gate open; `complete` is an in-flight
`buildOrderBook()` returning (its internal `try/catch` ensures it
always returns). -/
inductive SchedEvent where
  | arrive
  | complete
deriving DecidableEq, Repr

/-- Embedding of the guard in `iteration()`: an arrival checks
`isPreviousIterationFinished`; if set, it clears the flag and starts a
run (check-and-set is atomic, there is no `await` in between); if
clear, the iteration is postponed and nothing changes.  A completion
sets the flag back and ends the run. -/
def schedStep (s : SchedState) : SchedEvent → SchedState
  | SchedEvent.arrive =>
    if s.isPreviousIterationFinished then
      { isPreviousIterationFinished := false, inFlight := s.inFlight + 1 }
    else s
  | SchedEvent.complete =>
    if s.isPreviousIterationFinished then s
    else { isPreviousIterationFinished := true, inFlight := s.inFlight - 1 }

/-- Initial state: `let isPreviousIterationFinished = true`, no run in
flight. -/
def schedInit : SchedState :=
  { isPreviousIterationFinished := true, inFlight := 0 }

/-- State after an arbitrary finite event trace. -/
def schedRun (events : List SchedEvent) : SchedState :=
  events.foldl schedStep schedInit

/-- One entry of a `getBalances` snapshot: coin code and free amount. -/
structure BalanceEntry where
  code : String
  free : ℚ
deriving DecidableEq, Repr

/-- `balances.filter((crypto) => crypto.code === coin)?.[0]?.free || 0`. -/
def freeBalance (balances : List BalanceEntry) (coin : String) : ℚ :=
  match balances.filter (fun crypto => decide (crypto.code = coin)) with
  | [] => 0
  | crypto :: _ => crypto.free

/-- The coin whose free balance the `fill` command checks:
quote coin (`coin2`) for `buy`, base coin (`coin1`) for `sell`. -/
def relevantCoin (type : Side) (coin1 coin2 : String) : String :=
  match type with
  | Side.buy => coin2
  | Side.sell => coin1

/-- One entry of the order list built by `fill`:
`{ price, amount, altAmount }`. -/
structure FillOrder where
  price : ℚ
  amount : ℚ
  altAmount : ℚ
deriving DecidableEq, Repr

/-- Embedding of the `Make order list` loop of `fill`: at step `i` the
price advances by `utils.randomDeviation(step, 0.9)` (the drawn value is
`stepDev i`) and the tentative base amount is
`utils.randomDeviation(orderAmount, 0.9)` (the drawn value is
`amountDev i`).  If the running total exceeds `amount`, or the price
exceeds `high`, the loop breaks — except when `count === 1`, where the
amount (resp. price) is clamped instead. -/
def fillGo (type : Side) (amount high : ℚ) (count : ℕ)
    (stepDev amountDev : ℕ → ℚ) : ℕ → ℕ → ℚ → ℚ → List FillOrder
  | 0, _, _, _ => []
  | fuel + 1, i, price, total =>
    let price1 := price + stepDev i
    let a0 := amountDev i
    let total1 := total + a0
    if total1 > amount ∧ ¬ count = 1 then []
    else
      let a1 := if total1 > amount then amount else a0
      if price1 > high ∧ ¬ count = 1 then []
      else
        let price2 := if price1 > high then high else price1
        let entry : FillOrder :=
          match type with
          | Side.buy => { price := price2, amount := a1 / price2, altAmount := a1 }
          | Side.sell => { price := price2, amount := a1, altAmount := a1 * price2 }
        entry :: fillGo type amount high count stepDev amountDev fuel (i + 1) price2 total1

/-- Outcome of the `fill` command after argument validation: the
balance-fetch failure reply, the `Not enough {coin} to fill orders.`
reply, the confirmation prompt, or the placement report with the counts
of placed and not-placed orders. -/
inductive FillOutcome where
  | balancesUnavailable
  | notEnough (coin : String)
  | confirmationNeeded (cmd : String)
  | report (placedOrders notPlacedOrders : ℕ)
deriving DecidableEq, Repr

/-- Number of orders actually placed on the exchange by a `fill` run. -/
def ordersPlaced : FillOutcome → ℕ
  | FillOutcome.report placed _ => placed
  | _ => 0

/-- Embedding of `fill` (newer dialect) from the balance check onward;
arguments `type/amount/low/high/count` have passed validation.
`balances` is the cached snapshot (`none` when unavailable), `totalUSD`
the converted notional, `confirmThreshold` the configured
`amount_to_confirm_usd`, `isConfirmed` whether a `-y` marker was found,
and `placeOk i` whether the i-th `addGeneralOrder` call returns an id. -/
def fill (type : Side) (amount low high : ℚ) (count : ℕ)
    (balances : Option (List BalanceEntry)) (coin1 coin2 : String)
    (totalUSD confirmThreshold : ℚ) (isConfirmed : Bool)
    (stepDev amountDev : ℕ → ℚ) (placeOk : ℕ → Bool) : FillOutcome :=
  match balances with
  | none => FillOutcome.balancesUnavailable
  | some bs =>
    let coin := relevantCoin type coin1 coin2
    let balance := freeBalance bs coin
    if balance < amount then FillOutcome.notEnough coin
    else if ¬ confirmThreshold = 0 ∧ ¬ totalUSD = 0 ∧ totalUSD ≥ confirmThreshold ∧ ¬ isConfirmed then
      FillOutcome.confirmationNeeded "/fill"
    else
      let orderList := fillGo type amount high count stepDev amountDev count 0 low 0
      let placed := ((List.range orderList.length).filter (fun i => placeOk i)).length
      FillOutcome.report placed (orderList.length - placed)

/-- Modelled from the spec: the closed purpose tag set of §3
(`orderCollector.orderPurposes` itself is not under src).  After the
command handler's `delete orderPurposes['all']`, its keys are these
nine concrete tags. -/
inductive Purpose where
  | mm
  | ob
  | liq
  | pw
  | pm
  | cl
  | qh
  | ld
  | man
deriving DecidableEq, Repr

/-- The comparison operator of a `clear` price filter token:
`>P` becomes a `$gt` filter, `<P` a `$lt` filter. -/
inductive FilterOp where
  | gt
  | lt
deriving DecidableEq, Repr

/-- The mongo-style filter object built by `clear`:
`filter.price = { $gt: price }` or `filter.price = { $lt: price }`. -/
structure PriceFilter where
  op : FilterOp
  price : ℚ
deriving DecidableEq, Repr

/-- Whether an order price satisfies an optional price filter:
`$gt` and `$lt` are strict comparisons. -/
def matchesFilter (filter : Option PriceFilter) (price : ℚ) : Bool :=
  match filter with
  | none => true
  | some f =>
    match f.op with
    | FilterOp.gt => decide (f.price < price)
    | FilterOp.lt => decide (price < f.price)

/-- A `clear` command token, the result of the per-parameter string
tests of the handler's loop: `buy`/`sell`/`force`/`all`/`unk`
keywords, a purpose tag, a price filter token `>P` or `<P` (its
numeric part already parsed), or any other token, read as a coin
symbol when it follows a price token. -/
inductive ClearTok where
  | buy
  | sell
  | force
  | all
  | unk
  | purp (p : Purpose)
  | priceTok (op : FilterOp) (value : ℚ)
  | coin (c : String)
deriving DecidableEq, Repr

/-- The `purposes` variable of `clear`: `'all'`, `'unk'`, or an array
with a single concrete purpose tag. -/
inductive PurposeSel where
  | all
  | unk
  | tags (ps : List Purpose)
deriving DecidableEq, Repr

/-- Selector state accumulated by the parameter loop of `clear`. -/
structure ClearSel where
  doForce : Bool
  purposes : Option PurposeSel
  type : Option Side
  filter : Option PriceFilter
deriving DecidableEq, Repr

/-- The synchronous rejection replies of `clear`. -/
inductive ClearError where
  | priceFilterWithAllUnk
  | invalidPrice
  | wrongCoin
  | noPurpose
deriving DecidableEq, Repr

/-- The collector call `clear` dispatches to after its loop:
`clearAllOrders`, `clearUnknownOrders` (neither takes the price
filter), or `clearLocalOrders` with the accumulated filter. -/
inductive ClearDispatch where
  | clearAllOrders (type : Option Side) (doForce : Bool)
  | clearUnknownOrders (type : Option Side) (doForce : Bool)
  | clearLocalOrders (purposes : List Purpose) (type : Option Side)
      (filter : Option PriceFilter) (doForce : Bool)
deriving DecidableEq, Repr

/-- Embedding of the `for (const param of params)` loop of `clear`.
Keywords update the selector.  A price token first checks
`['all', 'unk'].includes(purposes)` — rejecting only when `all`/`unk`
has already been scanned — then requires a non-negative price and that
the next parameter equals the quote coin `coin2`. -/
def clearScan (coin2 : String) : ClearSel → List ClearTok → Except ClearError ClearSel
  | sel, [] => Except.ok sel
  | sel, tok :: rest =>
    match tok with
    | ClearTok.buy => clearScan coin2 { sel with type := some Side.buy } rest
    | ClearTok.sell => clearScan coin2 { sel with type := some Side.sell } rest
    | ClearTok.force => clearScan coin2 { sel with doForce := true } rest
    | ClearTok.all => clearScan coin2 { sel with purposes := some PurposeSel.all } rest
    | ClearTok.unk => clearScan coin2 { sel with purposes := some PurposeSel.unk } rest
    | ClearTok.purp p => clearScan coin2 { sel with purposes := some (PurposeSel.tags [p]) } rest
    | ClearTok.priceTok op v =>
      if sel.purposes = some PurposeSel.all ∨ sel.purposes = some PurposeSel.unk then
        Except.error ClearError.priceFilterWithAllUnk
      else if v < 0 then Except.error ClearError.invalidPrice
      else
        match rest with
        | ClearTok.coin c :: _ =>
          if c = coin2 then
            clearScan coin2 { sel with filter := some { op := op, price := v } } rest
          else Except.error ClearError.wrongCoin
        | _ => Except.error ClearError.wrongCoin
    | ClearTok.coin _ => clearScan coin2 sel rest

/-- Embedding of `clear` after the loop: with no purpose selected it
rejects; `all` and `unk` dispatch to collectors that ignore the price
filter; a concrete purpose dispatches to `clearLocalOrders` with the
filter. -/
def clearCommand (coin2 : String) (toks : List ClearTok) : Except ClearError ClearDispatch :=
  match clearScan coin2 { doForce := false, purposes := none, type := none, filter := none } toks with
  | Except.error e => Except.error e
  | Except.ok sel =>
    match sel.purposes with
    | none => Except.error ClearError.noPurpose
    | some PurposeSel.all => Except.ok (ClearDispatch.clearAllOrders sel.type sel.doForce)
    | some PurposeSel.unk => Except.ok (ClearDispatch.clearUnknownOrders sel.type sel.doForce)
    | some (PurposeSel.tags ps) =>
      Except.ok (ClearDispatch.clearLocalOrders ps sel.type sel.filter sel.doForce)

/-- A ledger order as seen by the collector: purpose tag, side, price. -/
structure LedgerOrder where
  purpose : Purpose
  type : Side
  price : ℚ
deriving DecidableEq, Repr

/-- Whether an order side passes the optional side selector. -/
def sideMatches (type : Option Side) (s : Side) : Bool :=
  match type with
  | none => true
  | some t => decide (t = s)

/-- Modelled from the spec: `orderCollector.clearLocalOrders` is not
under src; §4.D — for each ledger order matching the selector
`{purposes, pair, side?, priceFilter?, force}` it issues `cancelOrder`,
so the orders whose cancellation is attempted are exactly the matching
ones. -/
def clearLocalOrdersAttempted (purposes : List Purpose) (type : Option Side)
    (filter : Option PriceFilter) (orders : List LedgerOrder) : List LedgerOrder :=
  orders.filter (fun o =>
    decide (o.purpose ∈ purposes) && sideMatches type o.type && matchesFilter filter o.price)

/-- One level of an order book side: `(price, amount)` in base coin. -/
structure OrderBookEntry where
  price : ℚ
  amount : ℚ
deriving DecidableEq, Repr

/-- An order book snapshot: bids descending, asks ascending. -/
structure OrderBookSides where
  bids : List OrderBookEntry
  asks : List OrderBookEntry
deriving DecidableEq, Repr

/-- The `typeTargetPrice` field computed by `utils.getOrderBookInfo`. -/
inductive TargetType where
  | buy
  | sell
  | inSpread
deriving DecidableEq, Repr

/-- The part of `utils.getOrderBookInfo` the price maker uses. -/
structure OrderBookInfo where
  typeTargetPrice : TargetType
  amountTargetPrice : ℚ
  amountTargetPriceQuote : ℚ
deriving DecidableEq, Repr

/-- Modelled from the spec: `utils.getOrderBookInfo` is not under src;
§4.H — the side needed to move the price toward the target and the
cumulative base amount up to the target level on the opposite side
(asks up to the target for a buy, bids down to the target for a sell);
a target already inside the spread yields `inSpread`. -/
def getOrderBookInfo (ob : OrderBookSides) (targetPrice : ℚ) : Option OrderBookInfo :=
  match ob.asks, ob.bids with
  | ask0 :: _, bid0 :: _ =>
    if targetPrice ≥ ask0.price then
      let levels := ob.asks.filter (fun e => decide (e.price ≤ targetPrice))
      some { typeTargetPrice := TargetType.buy,
             amountTargetPrice := (levels.map (fun e => e.amount)).sum,
             amountTargetPriceQuote := (levels.map (fun e => e.price * e.amount)).sum }
    else if targetPrice ≤ bid0.price then
      let levels := ob.bids.filter (fun e => decide (targetPrice ≤ e.price))
      some { typeTargetPrice := TargetType.sell,
             amountTargetPrice := (levels.map (fun e => e.amount)).sum,
             amountTargetPriceQuote := (levels.map (fun e => e.price * e.amount)).sum }
    else
      some { typeTargetPrice := TargetType.inSpread,
             amountTargetPrice := 0,
             amountTargetPriceQuote := 0 }
  | _, _ => none

/-- Modelled from the spec: `utils.randomValue(low, high)` is not under
src; it draws uniformly from the interval, so with draw `r ∈ [0,1)` the
value is `low + r·(high − low)`. -/
def randomValue (low high r : ℚ) : ℚ :=
  low + r * (high - low)

/-- A pm-order as placed by the confirmed `make price T now` branch. -/
structure PmOrder where
  type : Side
  price : ℚ
  amount : ℚ
  amountQuote : ℚ
deriving DecidableEq, Repr

/-- Embedding of the `make price` action of the newer dialect:
`reliabilityKoef = utils.randomValue(1.05, 1.1)` (draw `r`),
`orderBookInfo.amountTargetPrice *= reliabilityKoef` (likewise the
quote amount); an `inSpread` target needs no action; otherwise, once
confirmed (`-y`), a single pm-order of the computed side and amount is
placed at the target price via `addGeneralOrder`. -/
def makePrice (ob : OrderBookSides) (targetPrice : ℚ) (r : ℚ)
    (isConfirmed : Bool) : Option PmOrder :=
  match getOrderBookInfo ob targetPrice with
  | none => none
  | some info =>
    let reliabilityKoef := randomValue (105/100) (110/100) r
    let amount := info.amountTargetPrice * reliabilityKoef
    let amountQuote := info.amountTargetPriceQuote * reliabilityKoef
    match info.typeTargetPrice with
    | TargetType.inSpread => none
    | TargetType.buy =>
      if isConfirmed then
        some { type := Side.buy, price := targetPrice, amount := amount, amountQuote := amountQuote }
      else none
    | TargetType.sell =>
      if isConfirmed then
        some { type := Side.sell, price := targetPrice, amount := amount, amountQuote := amountQuote }
      else none

/-- Order status as reported by `getOrderDetails` of the trading-API
adapters: `unknown, new, filled, part_filled, cancelled`. -/
inductive OrderStatus where
  | new
  | part_filled
  | filled
  | cancelled
  | unknown
deriving DecidableEq, Repr

/-- The fields of a DexTrade `order.data` reply that determine the
status: `volume` and `volume_done`. -/
structure DextradeOrderData where
  volume : ℚ
  volume_done : ℚ
deriving DecidableEq, Repr

/-- A DexTrade `getOrder` reply: either `order.dextradeErrorInfo` is set
(an API-level error, e.g. the order id is not recognized), or
`order.data` holds the order. -/
inductive DextradeReply where
  | errorInfo (message : String)
  | okData (data : DextradeOrderData)
deriving DecidableEq, Repr

/-- Embedding of the status logic of `getOrderDetails` in
`trader_dextrade.js`: on an error reply the status is `'unknown'`;
otherwise `volume_done == 0` gives `'new'`, `volume == volume_done`
gives `'filled'`, and anything else `'part_filled'`. -/
def dextradeGetOrderStatus : DextradeReply → OrderStatus
  | DextradeReply.errorInfo _ => OrderStatus.unknown
  | DextradeReply.okData o =>
    if o.volume_done = 0 then OrderStatus.new
    else if o.volume = o.volume_done then OrderStatus.filled
    else OrderStatus.part_filled

/-- The `ORDER_STATUS` code table of the Bitqik adapter:
`2 → new, 5 → part_filled, 4 → filled, 9 → new, 6 → cancelled`. -/
def bitqikOrderStatusMap (code : ℤ) : Option OrderStatus :=
  if code = 2 then some OrderStatus.new
  else if code = 5 then some OrderStatus.part_filled
  else if code = 4 then some OrderStatus.filled
  else if code = 9 then some OrderStatus.new
  else if code = 6 then some OrderStatus.cancelled
  else none

/-- A Bitqik `getOrder` reply: either `order.bitqikErrorInfo` is set,
or the order data (only the status code matters here). -/
inductive BitqikReply where
  | errorInfo (message : String)
  | okData (status : ℤ)
deriving DecidableEq, Repr

/-- Embedding of the status logic of `getOrderDetails` in the Bitqik
adapter: on an error reply the status is `'unknown'`; otherwise
`ORDER_STATUS[order.status] || 'cancelled'`. -/
def bitqikGetOrderStatus : BitqikReply → OrderStatus
  | BitqikReply.errorInfo _ => OrderStatus.unknown
  | BitqikReply.okData code => (bitqikOrderStatusMap code).getD OrderStatus.cancelled

/-- The fields of a Bitkub `getOrder` result that determine the
status: the `partial_filled` flag and the `status` string. -/
structure BitkubOrderData where
  partial_filled : Bool
  status : String
deriving DecidableEq, Repr

/-- A Bitkub `getOrder` reply: either `order.bitkubErrorInfo` is set,
or the order data. -/
inductive BitkubReply where
  | errorInfo (message : String)
  | okData (data : BitkubOrderData)
deriving DecidableEq, Repr

/-- The status chain of the Bitkub adapter's `getOrderDetails` for an
order that was found: `partial_filled` gives `'part_filled'`, then the
`status` string is compared against `'unfilled'`, `'filled'` and
`'cancelled'`, and the final `else` falls back to `'unknown'`. -/
def bitkubOrderStatus (o : BitkubOrderData) : OrderStatus :=
  if o.partial_filled then OrderStatus.part_filled
  else if o.status = "unfilled" then OrderStatus.new
  else if o.status = "filled" then OrderStatus.filled
  else if o.status = "cancelled" then OrderStatus.cancelled
  else OrderStatus.unknown

/-- Embedding of the status logic of `getOrderDetails` in the Bitkub
trader adapter: on an error reply the status is `'unknown'`; otherwise
the adapter looks the order id up among the open orders (by `hash`)
and, failing that, in the paginated order history — the outcome of the
history walk is passed in as `foundInHistory`; an id found in neither
is reported `'unknown'` (`Order not found`), and a found order goes
through the `bitkubOrderStatus` chain. -/
def bitkubGetOrderStatus (orderId : String) (openOrderHashes : List String)
    (foundInHistory : Bool) : BitkubReply → OrderStatus
  | BitkubReply.errorInfo _ => OrderStatus.unknown
  | BitkubReply.okData o =>
    if orderId ∈ openOrderHashes ∨ foundInHistory = true then bitkubOrderStatus o
    else OrderStatus.unknown

/-- C1 (counterexample): with the default `mm_buyPercent = 0.67`, the
set of draws on which `setType` returns `'buy'` is not a sub-interval
of `[0,1)` of measure `0.67`: any interval of that measure inside
`[0,1]` contains the draw `1/2`, on which `setType` returns `'sell'`. -/
theorem ob_setType_buy_measure_cex :
    ¬ ∃ a b : ℚ, 0 ≤ a ∧ b ≤ 1 ∧ b - a = 67/100 ∧
      (∀ r : ℚ, a < r → r < b → setType (67/100) r = some Side.buy) ∧
      (∀ r : ℚ, 0 ≤ r → r < 1 → setType (67/100) r = some Side.buy → a ≤ r ∧ r ≤ b) := by
  rintro ⟨a, b, ha, hb, hlen, hsub, -⟩
  have hbuy := hsub (1/2) (by linarith) (by linarith)
  norm_num [setType] at hbuy
  exact absurd hbuy (by decide)

/-- C1 (amended): for `0 < mm_buyPercent < 1`, `setType` returns
`'buy'` exactly when the draw falls in the sub-interval
`(mm_buyPercent, 1)` of `[0,1)`, whose measure is `1 − mm_buyPercent`
(the code reads `Math.random() > mm_buyPercent ? 'buy' : 'sell'`, so
`'buy'` has probability `1 − mm_buyPercent` and `'sell'` has
probability `mm_buyPercent`). -/
theorem ob_setType_buy_complement (bp : ℚ) (h0 : 0 < bp) (h1 : bp < 1) :
    ∃ a b : ℚ, a = bp ∧ b = 1 ∧ b - a = 1 - bp ∧
      ∀ r : ℚ, 0 ≤ r → r < 1 → (setType bp r = some Side.buy ↔ (a < r ∧ r < b)) := by
  refine ⟨bp, 1, rfl, rfl, by ring, ?_⟩
  intro r _ hr1
  unfold setType
  rw [if_neg (ne_of_gt h0)]
  by_cases h : r > bp
  · simp [h, hr1]
  · simp [h]

/-- C1 (witness): the amended statement evaluated at the default
configuration value `mm_buyPercent = 0.67`. -/
theorem ob_setType_buy_complement_witness :
    (0 : ℚ) < 67/100 ∧ (67 : ℚ)/100 < 1 ∧
    ∃ a b : ℚ, a = 67/100 ∧ b = 1 ∧ b - a = 1 - 67/100 ∧
      ∀ r : ℚ, 0 ≤ r → r < 1 → (setType (67/100) r = some Side.buy ↔ (a < r ∧ r < b)) :=
  ⟨by norm_num, by norm_num, ob_setType_buy_complement (67/100) (by norm_num) (by norm_num)⟩

theorem buildLoop_le_max (M : ℕ) (o : ℕ → Bool) :
    ∀ fuel count i, buildLoop M o fuel count i ≤ max count M := by
  intro fuel
  induction fuel with
  | zero => intro count i; simp [buildLoop]
  | succ n ih =>
    intro count i
    rw [buildLoop]
    split
    · rename_i hlt
      refine le_trans (ih _ _) ?_
      split
      · rename_i hok
        have : count + 1 ≤ M := hlt
        calc max (count + 1) M = M := max_eq_right this
          _ ≤ max count M := le_max_right _ _
      · exact le_refl _
    · exact le_max_left _ _

theorem buildLoop_le_add (M : ℕ) (o : ℕ → Bool) :
    ∀ fuel count i, buildLoop M o fuel count i ≤ count + fuel := by
  intro fuel
  induction fuel with
  | zero => intro count i; simp [buildLoop]
  | succ n ih =>
    intro count i
    rw [buildLoop]
    split
    · refine le_trans (ih _ _) ?_
      split <;> omega
    · omega

theorem buildLoop_stall (M : ℕ) (o : ℕ → Bool) (fuel count i : ℕ) (h : M ≤ count) :
    buildLoop M o fuel count i = count := by
  cases fuel with
  | zero => rfl
  | succ n => rw [buildLoop, if_neg (by omega)]

/-- C3 (amended): after one `buildOrderBook()` tick with `N` surviving
ob-orders, cap `M = mm_orderBookOrdersCount` and draw
`ordersToPlace ≤ 5`, the final open ob-order count is at most
`max N M`; when `N ≤ M` it is at most `M`; when `N ≥ M` the loop
places nothing at all; and at most `ordersToPlace ≤ 5` new orders are
placed.  (The unconditional bound `count ≤ M` of the original claim
fails when `N > M`, e.g. after the operator lowers the cap: the tick
does not cancel the excess.) -/
theorem buildOrderBook_budget_amended (M N toPlace : ℕ) (outcomes : ℕ → Bool)
    (h5 : toPlace ≤ MAX_ORDERS_PER_ITERATION) :
    buildOrderBookCount M N toPlace outcomes ≤ max N M ∧
    (N ≤ M → buildOrderBookCount M N toPlace outcomes ≤ M) ∧
    (M ≤ N → buildOrderBookCount M N toPlace outcomes = N) ∧
    buildOrderBookCount M N toPlace outcomes ≤ N + toPlace ∧
    buildOrderBookCount M N toPlace outcomes ≤ N + MAX_ORDERS_PER_ITERATION := by
  refine ⟨buildLoop_le_max M outcomes toPlace N 0, ?_, ?_, ?_, ?_⟩
  · intro hNM
    have := buildLoop_le_max M outcomes toPlace N 0
    rwa [max_eq_right hNM] at this
  · intro hMN
    exact buildLoop_stall M outcomes toPlace N 0 hMN
  · exact buildLoop_le_add M outcomes toPlace N 0
  · exact le_trans (buildLoop_le_add M outcomes toPlace N 0) (by omega)

/-- C3 (witness): the amended statement evaluated at the default cap
`M = 20` with an empty ledger and five successful placements. -/
theorem buildOrderBook_budget_amended_witness :
    5 ≤ MAX_ORDERS_PER_ITERATION ∧
    (buildOrderBookCount 20 0 5 (fun _ => true) ≤ max 0 20 ∧
    (0 ≤ 20 → buildOrderBookCount 20 0 5 (fun _ => true) ≤ 20) ∧
    (20 ≤ 0 → buildOrderBookCount 20 0 5 (fun _ => true) = 0) ∧
    buildOrderBookCount 20 0 5 (fun _ => true) ≤ 0 + 5 ∧
    buildOrderBookCount 20 0 5 (fun _ => true) ≤ 0 + MAX_ORDERS_PER_ITERATION) :=
  ⟨by decide, buildOrderBook_budget_amended 20 0 5 (fun _ => true) (by decide)⟩

/-- C3 (counterexample): with cap `M = 2` but `N = 3` surviving
ob-orders (the operator lowered `mm_orderBookOrdersCount` below the
live count), the tick ends with 3 open ob-orders, violating the
claimed bound `count ≤ mm_orderBookOrdersCount`. -/
theorem buildOrderBook_budget_cex :
    buildOrderBookCount 2 3 5 (fun _ => true) = 3 ∧
    ¬ buildOrderBookCount 2 3 5 (fun _ => true) ≤ 2 := by
  decide

/-- C2 (code evaluated at the failing input): in the older
command-processor dialect, with `/fill BTC/USDT buy quote=0.01 low=100
high=110 count=5` pending since time 0, a first `y` at time 1000 ms
re-runs the command with ` -y`, and — because the dialect never reaches
its trailing `pendingConfirmation.command = ''` — a second back-to-back
`y` at time 2000 ms re-runs it again instead of reporting no pending
command.  The newer dialect clears the pending command, so there the
second `y` reports no pending command, as the claim states. -/
theorem y_old_double_execution :
    (yOld { command := "/fill BTC/USDT buy quote=0.01 low=100 high=110 count=5", timestamp := 0 } 1000).2
      = YReply.executed "/fill BTC/USDT buy quote=0.01 low=100 high=110 count=5 -y" ∧
    (yOld (yOld { command := "/fill BTC/USDT buy quote=0.01 low=100 high=110 count=5", timestamp := 0 } 1000).1 2000).2
      = YReply.executed "/fill BTC/USDT buy quote=0.01 low=100 high=110 count=5 -y" ∧
    ¬ (yOld (yOld { command := "/fill BTC/USDT buy quote=0.01 low=100 high=110 count=5", timestamp := 0 } 1000).1 2000).2
      = YReply.noPending ∧
    (yNew (yNew { command := "/fill BTC/USDT buy quote=0.01 low=100 high=110 count=5", timestamp := 0 } 1000).1 2000).2
      = YReply.noPending := by
  refine ⟨by decide, by decide, by decide, by decide⟩

/-- C4: whenever a confirmation is pending, a `y` arriving with
`now − timestamp ≤ timeToConfirm` (at most ten minutes) re-runs the
pending command with the ` -y` marker appended and clears the pending
slot, while a `y` arriving strictly later than ten minutes replies that
the command expired and does not execute it (the slot is cleared in
both cases). -/
theorem y_confirmation_window (s : PendingConfirmation) (now : ℤ) (hcmd : ¬ s.command = "") :
    (now - s.timestamp ≤ timeToConfirm →
      yNew s now = ({ s with command := "" }, YReply.executed (s.command ++ " -y"))) ∧
    (timeToConfirm < now - s.timestamp →
      yNew s now = ({ s with command := "" }, YReply.expired)) := by
  constructor
  · intro h
    unfold yNew
    rw [if_pos hcmd, if_neg (not_lt.mpr h)]
  · intro h
    unfold yNew
    rw [if_pos hcmd, if_pos h]

/-- C4 (witness): a `/make` command pending since time 0 and confirmed
at 1000 ms is re-run with the ` -y` marker. -/
theorem y_confirmation_window_witness :
    yNew { command := "/make price 1.1 USDT now", timestamp := 0 } 1000
      = ({ command := "", timestamp := 0 }, YReply.executed ("/make price 1.1 USDT now" ++ " -y")) :=
  (y_confirmation_window { command := "/make price 1.1 USDT now", timestamp := 0 } 1000
    (by decide)).1 (by decide)

/-- The re-entrancy invariant of a background component: exactly one
run is in flight while `isPreviousIterationFinished` is cleared, none
while it is set. -/
def schedInv (s : SchedState) : Prop :=
  s.inFlight = if s.isPreviousIterationFinished then 0 else 1

theorem schedStep_inv (s : SchedState) (e : SchedEvent) (h : schedInv s) :
    schedInv (schedStep s e) := by
  cases e <;> cases hfin : s.isPreviousIterationFinished <;>
    simp [schedInv, schedStep, hfin] at h ⊢ <;> omega

theorem schedRun_inv (events : List SchedEvent) : schedInv (schedRun events) := by
  have general : ∀ (l : List SchedEvent) (s : SchedState), schedInv s →
      schedInv (l.foldl schedStep s) := by
    intro l
    induction l with
    | nil => intro s h; exact h
    | cons e rest ih => intro s h; exact ih _ (schedStep_inv s e h)
  exact general events schedInit rfl

/-- C9: in every reachable state of the order-book builder loop at most
one `buildOrderBook()` run is in flight; an `iteration()` firing while
a run is in flight changes nothing (it is skipped, not queued); and a
firing that does start a run clears `isPreviousIterationFinished` for
the whole run, so no two iterations of the component overlap. -/
theorem scheduler_no_overlap :
    (∀ events : List SchedEvent, (schedRun events).inFlight ≤ 1) ∧
    (∀ s : SchedState, s.isPreviousIterationFinished = false →
      schedStep s SchedEvent.arrive = s) ∧
    (∀ s : SchedState, s.isPreviousIterationFinished = true →
      (schedStep s SchedEvent.arrive).isPreviousIterationFinished = false ∧
      (schedStep s SchedEvent.arrive).inFlight = s.inFlight + 1) := by
  refine ⟨?_, ?_, ?_⟩
  · intro events
    have h := schedRun_inv events
    unfold schedInv at h
    rw [h]
    split <;> omega
  · intro s h
    unfold schedStep
    rw [h]
    simp
  · intro s h
    unfold schedStep
    rw [h]
    simp

/-- C9 (witness): a trace with a second arrival during an in-flight run
still has at most one run in flight. -/
theorem scheduler_no_overlap_witness :
    (schedRun [SchedEvent.arrive, SchedEvent.arrive, SchedEvent.complete]).inFlight ≤ 1 :=
  scheduler_no_overlap.1 [SchedEvent.arrive, SchedEvent.arrive, SchedEvent.complete]

/-- C5: whenever the free balance of the relevant coin (quote coin for
`buy`, base coin for `sell`) is strictly below the requested amount,
the `fill` command replies `Not enough {coin} to fill orders.` and the
order-placement loop is never reached: zero orders are placed. -/
theorem fill_insufficient_balance (type : Side) (amount low high : ℚ) (count : ℕ)
    (bs : List BalanceEntry) (coin1 coin2 : String) (totalUSD confirmThreshold : ℚ)
    (isConfirmed : Bool) (stepDev amountDev : ℕ → ℚ) (placeOk : ℕ → Bool)
    (h : freeBalance bs (relevantCoin type coin1 coin2) < amount) :
    fill type amount low high count (some bs) coin1 coin2 totalUSD confirmThreshold
        isConfirmed stepDev amountDev placeOk
      = FillOutcome.notEnough (relevantCoin type coin1 coin2) ∧
    ordersPlaced (fill type amount low high count (some bs) coin1 coin2 totalUSD
        confirmThreshold isConfirmed stepDev amountDev placeOk) = 0 := by
  have e : fill type amount low high count (some bs) coin1 coin2 totalUSD confirmThreshold
      isConfirmed stepDev amountDev placeOk
      = FillOutcome.notEnough (relevantCoin type coin1 coin2) := by
    simp [fill, h]
  exact ⟨e, by rw [e]; rfl⟩

/-- C5 (witness): scenario 5 of the spec — a buy fill of `quote=0.01`
with a free quote balance of `0.005` is rejected with the
not-enough-quote reply and places nothing. -/
theorem fill_insufficient_balance_witness :
    freeBalance [{ code := "USDT", free := 1/200 }] (relevantCoin Side.buy "ADM" "USDT") < 1/100 ∧
    (fill Side.buy (1/100) 100 110 5 (some [{ code := "USDT", free := 1/200 }]) "ADM" "USDT"
        0 0 false (fun _ => 0) (fun _ => 0) (fun _ => true)
      = FillOutcome.notEnough (relevantCoin Side.buy "ADM" "USDT") ∧
    ordersPlaced (fill Side.buy (1/100) 100 110 5 (some [{ code := "USDT", free := 1/200 }])
        "ADM" "USDT" 0 0 false (fun _ => 0) (fun _ => 0) (fun _ => true)) = 0) :=
  ⟨by norm_num [freeBalance, relevantCoin, List.filter_cons],
   fill_insufficient_balance Side.buy (1/100) 100 110 5 [{ code := "USDT", free := 1/200 }]
     "ADM" "USDT" 0 0 false (fun _ => 0) (fun _ => 0) (fun _ => true)
     (by norm_num [freeBalance, relevantCoin, List.filter_cons])⟩

/-- C6: `/clear mm sell >0.5 QUOTE` parses to a `clearLocalOrders` call
with purposes `[mm]`, side `sell` and the strict filter `price > 0.5`;
the collector attempts cancellation exactly for the ledger orders of
that purpose and side whose price strictly satisfies the filter; over
four sell mm-orders priced `0.3, 0.4, 0.6, 0.7` exactly the two orders
priced above `0.5` are attempted. -/
theorem clear_price_filter_selects :
    clearCommand "QUOTE" [ClearTok.purp Purpose.mm, ClearTok.sell,
        ClearTok.priceTok FilterOp.gt (1/2), ClearTok.coin "QUOTE"]
      = Except.ok (ClearDispatch.clearLocalOrders [Purpose.mm] (some Side.sell)
          (some { op := FilterOp.gt, price := 1/2 }) false) ∧
    (∀ (orders : List LedgerOrder) (o : LedgerOrder),
      o ∈ clearLocalOrdersAttempted [Purpose.mm] (some Side.sell)
            (some { op := FilterOp.gt, price := 1/2 }) orders
        ↔ o ∈ orders ∧ o.purpose = Purpose.mm ∧ o.type = Side.sell ∧ 1/2 < o.price) ∧
    clearLocalOrdersAttempted [Purpose.mm] (some Side.sell)
        (some { op := FilterOp.gt, price := 1/2 })
        [{ purpose := Purpose.mm, type := Side.sell, price := 3/10 },
         { purpose := Purpose.mm, type := Side.sell, price := 4/10 },
         { purpose := Purpose.mm, type := Side.sell, price := 6/10 },
         { purpose := Purpose.mm, type := Side.sell, price := 7/10 }]
      = [{ purpose := Purpose.mm, type := Side.sell, price := 6/10 },
         { purpose := Purpose.mm, type := Side.sell, price := 7/10 }] := by
  refine ⟨by norm_num [clearCommand, clearScan]; rfl, ?_,
    by norm_num [clearLocalOrdersAttempted, List.filter_cons, sideMatches, matchesFilter]⟩
  intro orders o
  simp only [clearLocalOrdersAttempted, List.mem_filter, Bool.and_eq_true, decide_eq_true_eq,
    sideMatches, matchesFilter, List.mem_singleton]
  constructor
  · rintro ⟨hm, ⟨⟨hp, hs⟩, hf⟩⟩
    exact ⟨hm, hp, hs.symm, hf⟩
  · rintro ⟨hm, hp, hs, hf⟩
    exact ⟨hm, ⟨⟨hp, hs.symm⟩, hf⟩⟩

/-- C10 (counterexample): the rejection of a price filter combined with
`all`/`unk` only fires when the `all`/`unk` token was scanned first.
In `/clear >0.5 QUOTE all` the filter token precedes `all`, so the
command is not rejected: it dispatches `clearAllOrders` (the filter is
silently dropped), contradicting the claim that every such combination
is rejected with no cancellation attempted. -/
theorem clear_price_filter_all_unk_cex :
    clearCommand "QUOTE" [ClearTok.priceTok FilterOp.gt (1/2), ClearTok.coin "QUOTE", ClearTok.all]
      = Except.ok (ClearDispatch.clearAllOrders none false) ∧
    ¬ clearCommand "QUOTE" [ClearTok.priceTok FilterOp.gt (1/2), ClearTok.coin "QUOTE", ClearTok.all]
      = Except.error ClearError.priceFilterWithAllUnk := by
  have h1 : clearCommand "QUOTE"
      [ClearTok.priceTok FilterOp.gt (1/2), ClearTok.coin "QUOTE", ClearTok.all]
      = Except.ok (ClearDispatch.clearAllOrders none false) := by
    norm_num [clearCommand, clearScan]
    rfl
  exact ⟨h1, by rw [h1]; simp⟩

/-- C10 (amended): a price filter token scanned while the purposes
selector already holds `all` or `unk` makes `clear` return the
synchronous `price filter does not work with all and unk` rejection,
and then no collector call is dispatched; in particular any command in
which `all`/`unk` precedes the `>P`/`<P` token is rejected.  (When the
filter token precedes `all`/`unk` the command is accepted and the
filter is ignored.) -/
theorem clear_price_filter_all_unk_amended (coin2 : String) (sel : ClearSel)
    (op : FilterOp) (v : ℚ) (rest : List ClearTok)
    (h : sel.purposes = some PurposeSel.all ∨ sel.purposes = some PurposeSel.unk) :
    clearScan coin2 sel (ClearTok.priceTok op v :: rest)
      = Except.error ClearError.priceFilterWithAllUnk ∧
    clearCommand "QUOTE" [ClearTok.all, ClearTok.priceTok FilterOp.gt (1/2), ClearTok.coin "QUOTE"]
      = Except.error ClearError.priceFilterWithAllUnk := by
  constructor
  · simp only [clearScan]
    rw [if_pos h]
  · norm_num [clearCommand, clearScan]

/-- C10 (witness): the amended statement applied with the selector
state produced by scanning `all` first. -/
theorem clear_price_filter_all_unk_amended_witness :
    clearScan "QUOTE" { doForce := false, purposes := some PurposeSel.all, type := none, filter := none }
        (ClearTok.priceTok FilterOp.gt (1/2) :: [ClearTok.coin "QUOTE"])
      = Except.error ClearError.priceFilterWithAllUnk ∧
    clearCommand "QUOTE" [ClearTok.all, ClearTok.priceTok FilterOp.gt (1/2), ClearTok.coin "QUOTE"]
      = Except.error ClearError.priceFilterWithAllUnk :=
  clear_price_filter_all_unk_amended "QUOTE"
    { doForce := false, purposes := some PurposeSel.all, type := none, filter := none }
    FilterOp.gt (1/2) [ClearTok.coin "QUOTE"] (Or.inl rfl)

/-- C7: for a confirmed `make price T now` whose target is not inside
the spread, a single pm-order is placed at the target price whose base
amount is the computed opposite-side depth multiplied by the
reliability factor `randomValue(1.05, 1.1)`; with draw `r ∈ [0,1)` and
non-negative depth the placed amount lies between `1.05×` and `1.1×`
the depth. -/
theorem make_price_reliability_bounds (ob : OrderBookSides) (targetPrice r : ℚ)
    (info : OrderBookInfo) (hinfo : getOrderBookInfo ob targetPrice = some info)
    (hr0 : 0 ≤ r) (hr1 : r < 1) (hd : 0 ≤ info.amountTargetPrice)
    (hside : ¬ info.typeTargetPrice = TargetType.inSpread) :
    ∃ order : PmOrder,
      makePrice ob targetPrice r true = some order ∧
      order.price = targetPrice ∧
      order.amount = info.amountTargetPrice * randomValue (105/100) (110/100) r ∧
      (105/100) * info.amountTargetPrice ≤ order.amount ∧
      order.amount ≤ (110/100) * info.amountTargetPrice := by
  have koef_lb : (105/100 : ℚ) ≤ randomValue (105/100) (110/100) r := by
    unfold randomValue
    nlinarith
  have koef_ub : randomValue (105/100) (110/100) r ≤ 110/100 := by
    unfold randomValue
    nlinarith
  have amt_lb : (105/100) * info.amountTargetPrice
      ≤ info.amountTargetPrice * randomValue (105/100) (110/100) r := by
    nlinarith [mul_nonneg hd (sub_nonneg.mpr koef_lb)]
  have amt_ub : info.amountTargetPrice * randomValue (105/100) (110/100) r
      ≤ (110/100) * info.amountTargetPrice := by
    nlinarith [mul_nonneg hd (sub_nonneg.mpr koef_ub)]
  cases htt : info.typeTargetPrice with
  | inSpread => exact absurd htt hside
  | buy =>
    refine ⟨{ type := Side.buy, price := targetPrice,
              amount := info.amountTargetPrice * randomValue (105/100) (110/100) r,
              amountQuote := info.amountTargetPriceQuote * randomValue (105/100) (110/100) r },
            ?_, rfl, rfl, amt_lb, amt_ub⟩
    simp [makePrice, hinfo, htt]
  | sell =>
    refine ⟨{ type := Side.sell, price := targetPrice,
              amount := info.amountTargetPrice * randomValue (105/100) (110/100) r,
              amountQuote := info.amountTargetPriceQuote * randomValue (105/100) (110/100) r },
            ?_, rfl, rfl, amt_lb, amt_ub⟩
    simp [makePrice, hinfo, htt]

/-- C7 (witness): scenario 6 of the spec — best ask `1.00`, cumulative
`50` base up to the target `1.10`; with draw `r = 0` the pm buy order
is placed at `1.10` with amount `52.5 ≥ 50 × 1.05`. -/
theorem make_price_reliability_bounds_witness :
    getOrderBookInfo
        { bids := [{ price := 9/10, amount := 5 }],
          asks := [{ price := 1, amount := 30 }, { price := 11/10, amount := 20 }] } (11/10)
      = some { typeTargetPrice := TargetType.buy, amountTargetPrice := 50,
               amountTargetPriceQuote := 52 } ∧
    ∃ order : PmOrder,
      makePrice
          { bids := [{ price := 9/10, amount := 5 }],
            asks := [{ price := 1, amount := 30 }, { price := 11/10, amount := 20 }] }
          (11/10) 0 true
        = some order ∧
      order.price = 11/10 ∧
      order.amount = (50 : ℚ) * randomValue (105/100) (110/100) 0 ∧
      (105/100) * (50 : ℚ) ≤ order.amount ∧
      order.amount ≤ (110/100) * (50 : ℚ) := by
  have hinfo : getOrderBookInfo
      { bids := [{ price := 9/10, amount := 5 }],
        asks := [{ price := 1, amount := 30 }, { price := 11/10, amount := 20 }] } (11/10)
      = some { typeTargetPrice := TargetType.buy, amountTargetPrice := 50,
               amountTargetPriceQuote := 52 } := by
    norm_num [getOrderBookInfo, List.filter_cons]
  exact ⟨hinfo,
    make_price_reliability_bounds _ (11/10) 0
      { typeTargetPrice := TargetType.buy, amountTargetPrice := 50, amountTargetPriceQuote := 52 }
      hinfo (by norm_num) (by norm_num) (by norm_num) (by simp)⟩

/-- C8 (counterexample): the Bitkub trader adapter reports a
recognized order as `'unknown'`: with an error-free reply whose order
id is found among the open-order hashes, a cleared `partial_filled`
flag and the status string `'expired'` (none of
`unfilled`/`filled`/`cancelled`) fall into the final `else`, so the
status is `'unknown'` although the exchange recognized the id. -/
theorem bitkub_recognized_unknown_cex :
    ("ord1" : String) ∈ ["ord1"] ∧
    (∀ m, ¬ BitkubReply.okData { partial_filled := false, status := "expired" }
      = BitkubReply.errorInfo m) ∧
    bitkubGetOrderStatus "ord1" ["ord1"] false
        (BitkubReply.okData { partial_filled := false, status := "expired" })
      = OrderStatus.unknown := by
  refine ⟨by decide, fun m => by simp, by decide⟩

/-- C8 (amended): every `getOrderDetails` status of the three trading
adapters under src lies in `{new, part_filled, filled, cancelled,
unknown}`.  For the DexTrade and Bitqik adapters, `'unknown'` is
returned exactly on an API-level error reply, so a recognized order is
never `'unknown'` there.  The Bitkub adapter returns `'unknown'` on an
error reply and when the id is found neither among open orders nor in
the history, but also — beyond the id-not-recognized outcome — for a
found order whose `partial_filled` flag is cleared and whose status
string is none of `unfilled`/`filled`/`cancelled`. -/
theorem getOrderDetails_status_amended :
    (∀ reply : DextradeReply,
      dextradeGetOrderStatus reply = OrderStatus.unknown
        ↔ ∃ m, reply = DextradeReply.errorInfo m) ∧
    (∀ reply : BitqikReply,
      bitqikGetOrderStatus reply = OrderStatus.unknown
        ↔ ∃ m, reply = BitqikReply.errorInfo m) ∧
    (∀ (orderId : String) (hashes : List String) (found : Bool) (m : String),
      bitkubGetOrderStatus orderId hashes found (BitkubReply.errorInfo m)
        = OrderStatus.unknown) ∧
    (∀ (orderId : String) (hashes : List String) (found : Bool) (o : BitkubOrderData),
      ¬ (orderId ∈ hashes ∨ found = true) →
      bitkubGetOrderStatus orderId hashes found (BitkubReply.okData o)
        = OrderStatus.unknown) ∧
    (∀ (orderId : String) (hashes : List String) (found : Bool) (o : BitkubOrderData),
      (orderId ∈ hashes ∨ found = true) →
      (bitkubGetOrderStatus orderId hashes found (BitkubReply.okData o)
          = OrderStatus.unknown
        ↔ o.partial_filled = false ∧ ¬ o.status = "unfilled" ∧
          ¬ o.status = "filled" ∧ ¬ o.status = "cancelled")) ∧
    (∀ reply : DextradeReply,
      dextradeGetOrderStatus reply = OrderStatus.new ∨
      dextradeGetOrderStatus reply = OrderStatus.part_filled ∨
      dextradeGetOrderStatus reply = OrderStatus.filled ∨
      dextradeGetOrderStatus reply = OrderStatus.cancelled ∨
      dextradeGetOrderStatus reply = OrderStatus.unknown) ∧
    (∀ reply : BitqikReply,
      bitqikGetOrderStatus reply = OrderStatus.new ∨
      bitqikGetOrderStatus reply = OrderStatus.part_filled ∨
      bitqikGetOrderStatus reply = OrderStatus.filled ∨
      bitqikGetOrderStatus reply = OrderStatus.cancelled ∨
      bitqikGetOrderStatus reply = OrderStatus.unknown) ∧
    (∀ (orderId : String) (hashes : List String) (found : Bool) (reply : BitkubReply),
      bitkubGetOrderStatus orderId hashes found reply = OrderStatus.new ∨
      bitkubGetOrderStatus orderId hashes found reply = OrderStatus.part_filled ∨
      bitkubGetOrderStatus orderId hashes found reply = OrderStatus.filled ∨
      bitkubGetOrderStatus orderId hashes found reply = OrderStatus.cancelled ∨
      bitkubGetOrderStatus orderId hashes found reply = OrderStatus.unknown) := by
  refine ⟨?_, ?_, ?_, ?_, ?_, ?_, ?_, ?_⟩
  · intro reply
    cases reply with
    | errorInfo m => simp [dextradeGetOrderStatus]
    | okData o =>
      simp only [dextradeGetOrderStatus]
      split_ifs <;> simp
  · intro reply
    cases reply with
    | errorInfo m => simp [bitqikGetOrderStatus]
    | okData code =>
      simp only [bitqikGetOrderStatus, bitqikOrderStatusMap]
      split_ifs <;> simp
  · intro orderId hashes found m
    rfl
  · intro orderId hashes found o h
    simp only [bitkubGetOrderStatus]
    rw [if_neg h]
  · intro orderId hashes found o h
    simp only [bitkubGetOrderStatus]
    rw [if_pos h]
    unfold bitkubOrderStatus
    split_ifs <;> simp_all
  · intro reply
    cases reply with
    | errorInfo m => simp [dextradeGetOrderStatus]
    | okData o =>
      simp only [dextradeGetOrderStatus]
      split_ifs <;> simp
  · intro reply
    cases reply with
    | errorInfo m => simp [bitqikGetOrderStatus]
    | okData code =>
      simp only [bitqikGetOrderStatus, bitqikOrderStatusMap]
      split_ifs <;> simp
  · intro orderId hashes found reply
    cases reply with
    | errorInfo m => simp [bitkubGetOrderStatus]
    | okData o =>
      simp only [bitkubGetOrderStatus, bitkubOrderStatus]
      split_ifs <;> simp

/-- C8 (witness): the amended statement applied to a Bitkub order id
found neither among open orders nor in history — the id-not-recognized
outcome is reported `'unknown'`. -/
theorem getOrderDetails_status_amended_witness :
    ¬ (("lost" : String) ∈ ([] : List String) ∨ false = true) ∧
    bitkubGetOrderStatus "lost" [] false
        (BitkubReply.okData { partial_filled := false, status := "filled" })
      = OrderStatus.unknown :=
  ⟨by decide,
   getOrderDetails_status_amended.2.2.2.1 "lost" [] false
     { partial_filled := false, status := "filled" } (by decide)⟩

end Tradebot
